import Mathlib

/-!
Shallow embedding of the shard-counter OCR pipeline of the
C1C-Achievements repository, covering the two implementations that the
specification describes:

* `cogs/shards/ocr.py` — the PIL/pytesseract "left rail" pipeline whose
  entry point is `extract_counts_from_image_bytes` (namespace `Shards`);
* `modules/achievements/ocr_pipeline.py` together with
  `modules/achievements/locators/left_rail.py` — the cv2/pytesseract
  pipeline whose entry points are `find_counter_rois` and `read_counters`
  (namespace `Pipeline`).

External libraries (PIL, OpenCV, pytesseract) are modelled as oracles:
images are terms of an inductive type recording exactly the image
operations the source performs, with concrete width/height semantics
taken from the libraries' documented behaviour, and every OCR engine
call is a function supplied by an environment record.  `none` results of
an oracle stand for the library call raising an exception (each call
site in the source wraps the call in `try`/`except`).  Python floats are
modelled as exact rationals; the few float constants involved
(`0.6`, `0.15`, ...) only tune heuristics that no theorem below depends
on at the precision where binary rounding could differ.
-/

/- Batteries marks the `Rat` field operations `@[irreducible]`; the
concrete witnesses below evaluate pipeline runs containing rational
confidences, which needs these operations to reduce. -/
set_option allowUnsafeReducibility true
attribute [local semireducible] Rat.add Rat.mul Rat.inv Rat.sub Rat.ofScientific

namespace C1C

/-! ## Python string primitives -/

/-- Characters stripped by Python's `str.strip()` (ASCII whitespace; the
source data here is OCR output of a digit whitelist, so non-ASCII
whitespace does not arise). -/
def isPySpace (c : Char) : Bool :=
  c = ' ' || c = '\t' || c = '\n' || c = '\r' || c = Char.ofNat 11 || c = Char.ofNat 12

/-- Python `str.strip()`. -/
def pyStrip (s : String) : String :=
  String.mk (((s.data.dropWhile isPySpace).reverse.dropWhile isPySpace).reverse)

/-- Python `str.rstrip('.')`. -/
def pyRstripDot (s : String) : String :=
  String.mk ((s.data.reverse.dropWhile (fun c => c = '.')).reverse)

def isAsciiDigit (c : Char) : Bool := '0' ≤ c && c ≤ '9'

/-- Python `str.isdigit()` (true on a non-empty all-digit string; the
strings reaching it here are ASCII). -/
def pyIsdigit (s : String) : Bool :=
  !s.data.isEmpty && s.data.all isAsciiDigit

/-- Python `int(...)` applied to a known all-digit string. -/
def digitsVal (s : String) : Nat :=
  s.data.foldl (fun n c => 10 * n + (c.toNat - '0'.toNat)) 0

/-- Remove every character satisfying `p` (models `str.replace(c, "")`
chains and `re.sub` character-class deletions). -/
def removeChars (p : Char → Bool) (s : String) : String :=
  String.mk (s.data.filter (fun c => !p c))

/-- Python `str.replace(a, b)` for single characters. -/
def pyReplaceChar (a b : Char) (s : String) : String :=
  String.mk (s.data.map (fun c => if c = a then b else c))

/-- Python `round` (banker's rounding, ties to even). -/
def pyRound (q : Rat) : Int :=
  let f : Int := q.floor
  let r : Rat := q - (f : Rat)
  if r < 1/2 then f
  else if 1/2 < r then f + 1
  else if f % 2 = 0 then f else f + 1

/-! ## ShardType

Modelled from the spec: the enum lives in `cogs/shards/constants.py`,
which is not among the provided sources; the spec (§3) fixes it as the
closed enumeration `Mystery, Ancient, Void, Primal, Sacred` in that
declaration order, which is also the iteration order of
`for st in ShardType`. -/

inductive ShardType
  | mystery
  | ancient
  | void
  | primal
  | sacred
deriving DecidableEq, Repr

/-- The members of `ShardType` in declaration order (Python
`for st in ShardType`). -/
def ShardType.all : List ShardType :=
  [.mystery, .ancient, .void, .primal, .sacred]

/-! ## Insertion-ordered dictionaries

Python `dict` preserves insertion order: assignment to an existing key
updates it in place, assignment to a new key appends. -/

/-- Python `d[k] = v`. -/
def dinsert {K V : Type} [DecidableEq K] : List (K × V) → K → V → List (K × V)
  | [], k, v => [(k, v)]
  | (k', v') :: rest, k, v =>
      if k' = k then (k, v) :: rest else (k', v') :: dinsert rest k v

/-- Python `d.setdefault(k, v)`. -/
def dsetdefault {K V : Type} [DecidableEq K] (d : List (K × V)) (k : K) (v : V) :
    List (K × V) :=
  if (d.map Prod.fst).contains k then d else d ++ [(k, v)]

def dkeys {K V : Type} (d : List (K × V)) : List K := d.map Prod.fst

def dvaluesSum {K : Type} (d : List (K × Int)) : Int := (d.map Prod.snd).sum

/-- First-occurrence deduplication relative to already-`seen` keys. -/
def firstDedupAux {K : Type} [DecidableEq K] (seen : List K) : List K → List K
  | [] => []
  | k :: ks =>
      if k ∈ seen then firstDedupAux seen ks
      else k :: firstDedupAux (seen ++ [k]) ks

/-- First-occurrence deduplication (the key order a Python dict ends up
with after inserting a sequence of keys). -/
def firstDedup {K : Type} [DecidableEq K] (l : List K) : List K :=
  firstDedupAux [] l

end C1C

namespace C1C.Shards

/-! ## cogs/shards/ocr.py — pure string helpers -/

/-- Translation table of `_normalize_digits`: common OCR slips
l/I/İ/í → 1 and O/o/º → 0. -/
def normalizeDigitChar (c : Char) : Char :=
  if c = 'l' || c = 'I' || c = 'İ' || c = 'í' then '1'
  else if c = 'O' || c = 'o' || c = 'º' then '0'
  else c

/-- `_normalize_digits` from `cogs/shards/ocr.py`. -/
def _normalize_digits (s : String) : String :=
  String.mk (s.data.map normalizeDigitChar)

/-- `_parse_num_token` from `cogs/shards/ocr.py`: normalise confusables,
drop `,`/`.`/space, then `int(t) if t.isdigit() else 0`. -/
def _parse_num_token (raw : String) : Int :=
  let t := removeChars (fun c => c = ',' || c = '.' || c = ' ') (_normalize_digits raw)
  if pyIsdigit t then (digitsVal t : Int) else 0

/-- Regex `_NUM_RE = ^\d{1,5}(?:[.,\s]\d{3})*$` — group-separated number
shape.  `sepGroups` consumes the `([.,\s]\d\d\d)*` tail. -/
def sepGroups : List Char → Bool
  | [] => true
  | sep :: a :: b :: c :: rest =>
      (sep = '.' || sep = ',' || isPySpace sep) &&
      isAsciiDigit a && isAsciiDigit b && isAsciiDigit c && sepGroups rest
  | _ => false

def numReMatch (s : String) : Bool :=
  let lead := s.data.takeWhile isAsciiDigit
  let rest := s.data.dropWhile isAsciiDigit
  decide (1 ≤ lead.length) && decide (lead.length ≤ 5) && sepGroups rest

/-- `_score_band_token`: comparable `(digit count, confidence)` pair. -/
def _score_band_token (txt : String) (conf : Rat) : Nat × Rat :=
  let cleaned := removeChars (fun c => c = ',' || c = '.' || c = ' ') (_normalize_digits txt)
  (cleaned.data.length, conf)

/-- Python tuple `>` on the score pairs (lexicographic). -/
def scoreGt (a b : Nat × Rat) : Bool :=
  decide (b.1 < a.1) || (decide (a.1 = b.1) && decide (b.2 < a.2))

/-- `_scale_if_small` from `cogs/shards/ocr.py`. -/
def _scale_if_small (w h : Nat) : Rat :=
  if w < 900 then 2
  else if w < 1300 then 3/2
  else 1

/-! ## PIL image model for cogs/shards/ocr.py

A `PImg` term records the chain of PIL operations applied to the
decoded, EXIF-transposed screenshot.  `grayA`/`binA` are the
gray/binarised outputs of `_preprocess_roi`, `grayS`/`binS` those of
`_preprocess_roi_strong`, `inverted` is `ImageOps.invert`. -/

inductive PImg
  | base (w h : Nat)
  | resized (i : PImg) (w h : Nat)
  | cropped (i : PImg) (x1 y1 x2 y2 : Nat)
  | grayA (i : PImg)
  | binA (i : PImg)
  | grayS (i : PImg)
  | binS (i : PImg)
  | inverted (i : PImg)
deriving DecidableEq, Repr

/-- PIL image width (`img.size[0]`; `crop` produces exactly the box
width, padding if the box exceeds the source). -/
def PImg.w : PImg → Nat
  | .base w _ => w
  | .resized _ w _ => w
  | .cropped _ x1 _ x2 _ => x2 - x1
  | .grayA i | .binA i | .grayS i | .binS i | .inverted i => i.w

/-- PIL image height (`img.size[1]`). -/
def PImg.h : PImg → Nat
  | .base _ h => h
  | .resized _ _ h => h
  | .cropped _ _ y1 _ y2 => y2 - y1
  | .grayA i | .binA i | .grayS i | .binS i | .inverted i => i.h

/-- `_preprocess_roi`: `(gray_autocontrast, binarized)`. -/
def _preprocess_roi (roi : PImg) : PImg × PImg := (PImg.grayA roi, PImg.binA roi)

/-- `_preprocess_roi_strong`: aggressive Otsu-threshold variant. -/
def _preprocess_roi_strong (roi : PImg) : PImg × PImg := (PImg.grayS roi, PImg.binS roi)

/-- One word-level token of a `pytesseract.image_to_data` result (the
`float(conf)`-or-`-1.0` parse is already applied to `conf`). -/
structure Tok where
  left : Nat
  top : Nat
  width : Nat
  height : Nat
  conf : Rat
  text : String
  source : String := ""
deriving DecidableEq, Repr

def Tok.right (t : Tok) : Nat := t.left + t.width

def Tok.bottom (t : Tok) : Nat := t.top + t.height

def Tok.cx (t : Tok) : Nat := t.left + t.width / 2

def Tok.cy (t : Tok) : Nat := t.top + t.height / 2

/-- Key type of the token-deduplication dict of
`_read_counts_from_roi_impl`. -/
abbrev TKey : Type := Int × Int × Int × Int × String

/-- `_r` of `_rounded_token_key`: `int(round(v / step) * step)` with
`step = 4` (Python banker's rounding). -/
def roundStep (v : Nat) : Int := pyRound ((v : Rat) / 4) * 4

def _rounded_token_key (tok : Tok) : TKey :=
  (roundStep tok.left, roundStep tok.top, roundStep tok.width, roundStep tok.height, tok.text)

/-- `token_map[key] = token` guarded by
`if prev is None or conf > prev.conf` (in-place update preserves dict
order, new keys append). -/
def tmInsert (tm : List (TKey × Tok)) (k : TKey) (t : Tok) : List (TKey × Tok) :=
  match tm with
  | [] => [(k, t)]
  | (k', t') :: rest =>
      if k' = k then (if t'.conf < t.conf then (k, t) :: rest else (k', t') :: rest)
      else (k', t') :: tmInsert rest k t

/-- Exceptions of the shards pipeline that matter to control flow. -/
inductive PyErr
  | decodeErr
  | typeErr
deriving DecidableEq, Repr

/-- Oracle environment for `cogs/shards/ocr.py`: `available` models the
guard on the imports (`pytesseract is None or Image is None or ...`), `decode`
the size of `Image.open(io.BytesIO(data))` after `exif_transpose`
(`none` = undecodable, the call raises), `imgData` each
`pytesseract.image_to_data` call (`none` = the call raised), and
`invertOk` whether `ImageOps.invert` succeeds on the given image. -/
structure Env where
  available : Bool
  decode : Option (Nat × Nat)
  imgData : PImg → String → Option (List Tok)
  invertOk : PImg → Bool

/-- Stable insertion sort by `left` modelling Python's stable
`sorted(tokens, key=lambda t: t.left)`. -/
def insertByLeft (t : Tok) : List Tok → List Tok
  | [] => [t]
  | x :: xs => if x.left ≤ t.left then x :: insertByLeft t xs else t :: x :: xs

def sortByLeft (l : List Tok) : List Tok :=
  l.foldl (fun acc t => insertByLeft t acc) []

/-- Merge loop of `_merge_band_tokens`; `acc` is the `merged` list in
reverse (head = `merged[-1]`).  `int(0.6 * min_width)` and
`int(0.5 * min_width)` are modelled as exact rational floors. -/
def mergeLoop : List Tok → List Tok → List Tok
  | acc, [] => acc.reverse
  | [], tok :: rest => mergeLoop [tok] rest
  | prev :: accTl, tok :: rest =>
      let gap : Int := (tok.left : Int) - (prev.right : Int)
      let overlap : Int := (min prev.right tok.right : Int) - (max prev.left tok.left : Int)
      let min_width : Nat := max 1 (min prev.width tok.width)
      if gap < 0 && decide ((((3 * min_width) / 5 : Nat) : Int) ≤ overlap) then
        let bo :=
          if scoreGt (_score_band_token tok.text tok.conf) (_score_band_token prev.text prev.conf)
          then (tok, prev) else (prev, tok)
        mergeLoop ({ bo.1 with conf := max prev.conf tok.conf } :: accTl) rest
      else
        let max_gap : Int := max 2 ((min_width / 2 : Nat) : Int)
        if gap ≤ max_gap then
          let new_left := min prev.left tok.left
          let new_top := min prev.top tok.top
          let new_right := max prev.right tok.right
          let new_bottom := max prev.bottom tok.bottom
          mergeLoop
            ({ left := new_left, top := new_top,
               width := new_right - new_left, height := new_bottom - new_top,
               conf := min prev.conf tok.conf,
               text := prev.text ++ tok.text,
               source := if prev.source.data.isEmpty then tok.source else prev.source } :: accTl)
            rest
        else
          mergeLoop (tok :: prev :: accTl) rest

/-- `_merge_band_tokens` from `cogs/shards/ocr.py`. -/
def _merge_band_tokens (tokens : List Tok) : List Tok :=
  if tokens.isEmpty then [] else mergeLoop [] (sortByLeft tokens)

/-- Python `max(cands, key=_score_band_token)`: first maximal element. -/
def maxByScore (l : List Tok) : Option Tok :=
  l.foldl
    (fun best t =>
      match best with
      | none => some t
      | some b =>
          if scoreGt (_score_band_token t.text t.conf) (_score_band_token b.text b.conf)
          then some t else some b)
    none

/-- Python `max(picks, key=...)` over `(text, conf, cfg)` triples. -/
def maxPickByScore (l : List (String × Rat × String)) : Option (String × Rat × String) :=
  l.foldl
    (fun best p =>
      match best with
      | none => some p
      | some b =>
          if scoreGt (_score_band_token p.1 p.2.1) (_score_band_token b.1 b.2.1)
          then some p else some b)
    none

/-- `_run_psm7_band_pass` from `cogs/shards/ocr.py`: tighter per-band
OCR pass over the binarised and gray sub-images. -/
def _run_psm7_band_pass (env : Env) (sub_img_bin sub_img_gray : PImg) (aggressive : Bool) :
    Option (String × Rat × String) :=
  let cfgs :=
    if aggressive then
      ["--oem 1 --psm 8 -c tessedit_char_whitelist=0123456789 -c classify_bln_numeric_mode=1",
       "--oem 1 --psm 10 -c tessedit_char_whitelist=0123456789 -c classify_bln_numeric_mode=1"]
    else
      ["--oem 1 --psm 7 -c tessedit_char_whitelist=0123456789., -c classify_bln_numeric_mode=1"]
  let picks :=
    [("bin", sub_img_bin), ("gray", sub_img_gray)].foldl
      (fun picks li =>
        cfgs.foldl
          (fun picks cfg =>
            match env.imgData li.2 cfg with
            | none => picks
            | some toks =>
              toks.foldl
                (fun picks t =>
                  let raw2 := pyStrip t.text
                  if raw2.data.isEmpty then picks
                  else
                    let t2 := _normalize_digits raw2
                    if !(numReMatch t2 || pyIsdigit t2) then picks
                    else if 10 ≤ t.conf then
                      picks ++ [(t2, t.conf,
                        "mode=" ++ (if aggressive then "fallback" else "primary")
                          ++ "|img=" ++ li.1 ++ "|cfg=" ++ cfg ++ "|micro=1")]
                    else picks)
                picks)
          picks)
      []
  maxPickByScore picks

/-- Token filter and dedup-insert of the main loop of
`_read_counts_from_roi_impl`. -/
def processTok (aggressive : Bool) (label cfg : String) (max_x : Nat)
    (tm : List (TKey × Tok)) (t : Tok) : List (TKey × Tok) :=
  let raw := pyStrip t.text
  if raw.data.isEmpty then tm
  else
    let txt := pyReplaceChar (Char.ofNat 160) ' ' (_normalize_digits raw)
    if !(numReMatch txt || pyIsdigit txt) then tm
    else if t.conf < 18 then tm
    else if max_x < t.left + t.width / 2 then tm
    else
      let token : Tok :=
        { t with
          text := txt
          source := "mode=" ++ (if aggressive then "fallback" else "primary")
            ++ "|img=" ++ label ++ "|cfg=" ++ cfg }
      tmInsert tm (_rounded_token_key token) token

/-- Candidate-image/config sweep of `_read_counts_from_roi_impl`,
including the `if len(token_map) >= 8: break` after each candidate
image. -/
def gatherTokens (env : Env) (aggressive : Bool) (cfgs : List String) (max_x : Nat)
    (candidates : List (String × PImg)) : List (TKey × Tok) :=
  (candidates.foldl
    (fun st cand =>
      if st.2 then st
      else
        let tm := cfgs.foldl
          (fun tm cfg =>
            match env.imgData cand.2 cfg with
            | none => tm
            | some toks =>
                toks.foldl (fun tm t => processTok aggressive cand.1 cfg max_x tm t) tm)
          st.1
        (tm, decide (8 ≤ tm.length)))
    (([] : List (TKey × Tok)), false)).1

/-- `_score_band_token(*(pick or ("", -1.0)))` from line 685 of
`cogs/shards/ocr.py`: a `None` pick unpacks the default pair, but a
non-`None` pick is a `(text, conf, cfg)` 3-tuple unpacked into the
2-parameter `_score_band_token`, which raises `TypeError`. -/
def scoreOfPick : Option (String × Rat × String) → Except PyErr (Nat × Rat)
  | none => .ok (_score_band_token "" (-1))
  | some _ => .error .typeErr

/-- Shard order used to label the five bands (`order = [ShardType.MYSTERY,
ANCIENT, VOID, PRIMAL, SACRED]` at line 652). -/
def SHARD_ORDER : List ShardType :=
  [.mystery, .ancient, .void, .primal, .sacred]

/-- One iteration of the `for band in range(5)` loop of
`_read_counts_from_roi_impl` (the `collect_debug=False` path): find the
band's best merged token, run the micro pass, compare the two picks
(which raises `TypeError` on any non-`None` pick, see `scoreOfPick`)
and append the band count. -/
def bandRead (env : Env) (aggressive : Bool) (roi : PImg) (tokens : List Tok)
    (band_h : Rat) (max_x : Nat) (acc : List Int) (band : Nat) :
    Except PyErr (List Int) := do
  let y0 := (band : Rat) * band_h
  let y1 := ((band : Rat) + 1) * band_h
  let cands := tokens.filter
    (fun t => decide (y0 ≤ (t.cy : Rat)) && decide ((t.cy : Rat) < y1))
  let cands := _merge_band_tokens cands
  let best_token := maxByScore cands
  let main_pick := best_token.map (fun t => (t.text, t.conf, t.source))
  let by0 := ((y0 + band_h * (3/20)).floor).toNat
  let by1 := ((y0 + band_h * (17/20)).floor).toNat
  let sub := PImg.cropped roi 0 by0 max_x by1
  let subPre := if aggressive then _preprocess_roi_strong sub else _preprocess_roi sub
  let micro_pick := _run_psm7_band_pass env subPre.2 subPre.1 aggressive
  let scoreMicro ← scoreOfPick micro_pick
  let scoreMain ← scoreOfPick main_pick
  let best_pick := if scoreGt scoreMicro scoreMain then micro_pick else main_pick
  match best_pick with
  | none => pure (acc ++ [(0 : Int)])
  | some p => pure (acc ++ [_parse_num_token p.1])

/-- `_read_counts_from_roi_impl` from `cogs/shards/ocr.py` (the
`collect_debug=False` path used by the extraction entry point): OCR the
ROI, split into five bands, and pick the best numeric token per band.
The band-scoring comparison can raise `TypeError` (see `scoreOfPick`),
which propagates to the caller. -/
def _read_counts_from_roi_impl (env : Env) (roi : PImg) (aggressive : Bool) :
    Except PyErr (List (ShardType × Int) × Nat) := do
  let pre := if aggressive then _preprocess_roi_strong roi else _preprocess_roi roi
  let gray := pre.1
  let bin_img := pre.2
  let cfgs :=
    if aggressive then
      ["--oem 1 --psm 8 -c tessedit_char_whitelist=0123456789., -c preserve_interword_spaces=1 -c classify_bln_numeric_mode=1",
       "--oem 1 --psm 10 -c tessedit_char_whitelist=0123456789 -c classify_bln_numeric_mode=1"]
    else
      ["--oem 3 --psm 6  -c tessedit_char_whitelist=0123456789., -c preserve_interword_spaces=1 -c classify_bln_numeric_mode=1",
       "--oem 3 --psm 11 -c tessedit_char_whitelist=0123456789., -c preserve_interword_spaces=1 -c classify_bln_numeric_mode=1"]
  let candidates :=
    [("bin", bin_img)]
      ++ (if env.invertOk bin_img then [("bin_inv", PImg.inverted bin_img)] else [])
      ++ [("gray", gray)]
  let wBin := bin_img.w
  let hBin := bin_img.h
  let max_x := (((wBin : Rat) * (3/5)).floor).toNat
  let token_map := gatherTokens env aggressive cfgs max_x candidates
  let tokens := token_map.map Prod.snd
  let band_h : Rat := (hBin : Rat) / 5
  let counts_by_band ← (List.range 5).foldlM
    (bandRead env aggressive roi tokens band_h max_x) []
  let counts := (SHARD_ORDER.zip counts_by_band).foldl
    (fun d p => dinsert d p.1 (max 0 p.2)) []
  let score := (counts_by_band.filter (fun v => decide (0 < v))).length
  pure (counts, score)

/-- `_read_counts_from_roi` from `cogs/shards/ocr.py`: primary pass,
aggressive fallback when the primary found nothing. -/
def _read_counts_from_roi (env : Env) (roi : PImg) :
    Except PyErr (List (ShardType × Int) × Nat) := do
  let primary ← _read_counts_from_roi_impl env roi false
  if 0 < primary.2 then pure primary
  else
    let fb ← _read_counts_from_roi_impl env roi true
    if primary.2 < fb.2 then pure fb else pure primary

/-- `_left_rail_crop` from `cogs/shards/ocr.py`. -/
def _left_rail_crop (img : PImg) ( rr : Rat) : PImg :=
  let wImg := img.w
  let x2 := (max 1 (min (wImg : Rat) ((wImg : Rat) * rr))).floor.toNat
  PImg.cropped img 0 0 x2 img.h

/-- Crop-width sweep of the extraction entry points. -/
def CROP_RATIOS : List Rat := [19/50, 21/50, 23/50]

/-- One iteration of the crop-width loop of
`extract_counts_from_image_bytes`: OCR the crop and keep the counts
with the strictly best score. -/
def ratioStep (env : Env) (base : PImg) (best : List (ShardType × Int) × Int)
    ( rr : Rat) : Except PyErr (List (ShardType × Int) × Int) := do
  let r ← _read_counts_from_roi env (_left_rail_crop base rr)
  if best.2 < (r.2 : Int) then pure (r.1, (r.2 : Int)) else pure best

/-- Body of `extract_counts_from_image_bytes` (everything inside its
`try`, plus the import guard before it); exceptions propagate as
`Except.error`. -/
def extract_counts_body (env : Env) : Except PyErr (List (ShardType × Int)) := do
  if !env.available then pure []
  else
    match env.decode with
    | none => throw .decodeErr
    | some wh => do
      let scale := _scale_if_small wh.1 wh.2
      let base := PImg.base wh.1 wh.2
      let base :=
        if scale ≠ 1 then
          PImg.resized base (((wh.1 : Rat) * scale).floor.toNat)
            (((wh.2 : Rat) * scale).floor.toNat)
        else base
      let best ← CROP_RATIOS.foldlM (ratioStep env base) ([], (-1 : Int))
      let counts := ShardType.all.foldl (fun d st => dsetdefault d st 0) best.1
      if dvaluesSum counts = 0 then pure [] else pure counts

/-- `extract_counts_from_image_bytes` from `cogs/shards/ocr.py`: the
outer `except Exception: return {}` catches everything the body
raises. -/
def extract_counts_from_image_bytes (env : Env) : List (ShardType × Int) :=
  match extract_counts_body env with
  | .ok counts => counts
  | .error _ => []

end C1C.Shards

namespace C1C.Pipeline

/-! ## modules/achievements/ocr_pipeline.py — pure string helpers -/

/-- Regex `_NUM_RE = ^\d+(?:[.,]\d+)?$` from `ocr_pipeline.py`. -/
def pipeNumRe (s : String) : Bool :=
  let lead := s.data.takeWhile isAsciiDigit
  let rest := s.data.dropWhile isAsciiDigit
  decide (1 ≤ lead.length) &&
    (match rest with
     | [] => true
     | sep :: tail =>
         (sep = '.' || sep = ',') && decide (1 ≤ tail.length) && tail.all isAsciiDigit)

/-- `_looks_like_number` from `ocr_pipeline.py`. -/
def _looks_like_number (text : String) : Bool :=
  let cleaned := pyStrip text
  if cleaned.data.isEmpty then false
  else
    let cleaned := pyRstripDot cleaned
    if cleaned.data.isEmpty then false
    else pipeNumRe cleaned

/-- `normalize_count` from `ocr_pipeline.py`: strip, drop trailing dots,
remove whitespace/`,`/`.`, parse if all digits. -/
def normalize_count (raw : String) : Option Int :=
  let text := pyRstripDot (pyStrip raw)
  if text.data.isEmpty then none
  else
    let digits := removeChars (fun c => isPySpace c || c = ',' || c = '.') text
    if pyIsdigit digits then some (digitsVal digits : Int) else none

/-! ## cv2 image model

An `Img2` term records exactly the chain of OpenCV/numpy operations the
source applies to a decoded screenshot (`mat` is an arbitrary input
array).  Width/height/channel semantics of each operation follow the
OpenCV documentation; pixel contents are left to the OCR oracles, which
are functions of the whole `Img2` term. -/

inductive Img2
  | mat (rows cols : Nat) (chans : Option Nat)
  | cvtGray (i : Img2)
  | cvtColor (i : Img2)
  | resize2x (i : Img2)
  | scaleAbs (i : Img2)
  | adaptiveThresh (i : Img2) (block c : Nat)
  | morphOpen (i : Img2)
  | dilate (i : Img2)
  | medianBlur (i : Img2)
  | slice (i : Img2) (y0 y1 x0 x1 : Nat)
deriving DecidableEq, Repr

/-- Image height (`shape[0]`); `cv2.resize(..., fx=2.0, fy=2.0)` doubles
it, numpy slicing `[y0:y1]` clamps both bounds to the array size. -/
def Img2.h : Img2 → Nat
  | mat rows _ _ => rows
  | cvtGray i | cvtColor i | scaleAbs i | adaptiveThresh i _ _
  | morphOpen i | dilate i | medianBlur i => i.h
  | resize2x i => 2 * i.h
  | slice i y0 y1 _ _ => min y1 i.h - min y0 i.h

/-- Image width (`shape[1]`). -/
def Img2.w : Img2 → Nat
  | mat _ cols _ => cols
  | cvtGray i | cvtColor i | scaleAbs i | adaptiveThresh i _ _
  | morphOpen i | dilate i | medianBlur i => i.w
  | resize2x i => 2 * i.w
  | slice i _ _ x0 x1 => min x1 i.w - min x0 i.w

/-- Channel count: `none` models a 2-D array (`len(shape) == 2`);
`cv2.cvtColor(..., GRAY2BGR)` yields 3 channels, grayscale conversion a
2-D array, everything else preserves the input layout. -/
def Img2.chn : Img2 → Option Nat
  | mat _ _ chans => chans
  | cvtGray _ => none
  | cvtColor _ => some 3
  | resize2x i | scaleAbs i | adaptiveThresh i _ _
  | morphOpen i | dilate i | medianBlur i => i.chn
  | slice i _ _ _ _ => i.chn

/-- numpy `arr.size` (product of all dimensions). -/
def Img2.size (i : Img2) : Nat := i.h * i.w * (i.chn.getD 1)

/-- `preprocess_for_ocr` from `ocr_pipeline.py`; `none` models the
`ValueError` raised on an empty input array. -/
def preprocess_for_ocr (img : Img2) (band_name : Option String) : Option Img2 :=
  if img.size = 0 then none
  else
    let color := if img.chn.isNone then Img2.cvtColor img else img
    let upscaled := Img2.resize2x color
    let gray := Img2.scaleAbs (Img2.cvtGray upscaled)
    let bc : Nat × Nat := if band_name = some "Sacred" then (23, 3) else (19, 2)
    let bw := Img2.adaptiveThresh gray bc.1 bc.2
    let bw := Img2.morphOpen bw
    some (if band_name = some "Sacred" then Img2.dilate bw else bw)

/-- `_prep_bin` from `ocr_pipeline.py`; `none` models the `ValueError`
on empty input. -/
def _prep_bin (img_np : Img2) : Option Img2 :=
  if img_np.size = 0 then none
  else
    let gray := if img_np.chn.isSome then Img2.cvtGray img_np else img_np
    some (Img2.adaptiveThresh (Img2.medianBlur gray) 31 9)

/-- Tesseract oracle environment: `imageToData` models
`pytesseract.image_to_data` (the zipped `text`/`conf` columns, with the
`float(conf)`-or-`-1.0` parse already applied), `imgToStr` models
`pytesseract.image_to_string`.  `none` models the library call raising
(every call site catches). -/
structure OcrEnv where
  imageToData : Img2 → String → Option (List (String × Rat))
  imgToStr : Img2 → String → Option String

def DEFAULT_CONFIG : String := "--oem 1 --psm 7 -c tessedit_char_whitelist=0123456789."

def CONF_FLOOR : Rat := 35

def BAND_ORDER : List String := ["Mystery", "Ancient", "Void", "Primal", "Sacred"]

/-- `_lenient_digits` from `ocr_pipeline.py`: relaxed pass, strip
commas, keep only digits. -/
def _lenient_digits (env : OcrEnv) (bin_or_gray : Img2) : String :=
  if bin_or_gray.size = 0 then ""
  else
    match env.imgToStr bin_or_gray "--oem 3 --psm 7 -c tessedit_char_whitelist=0123456789," with
    | none => ""
    | some raw => removeChars (fun c => !isAsciiDigit c) (removeChars (fun c => c = ',') raw)

/-- `tesseract_read` from `ocr_pipeline.py` with its two fallback
configurations (an exception on the first call returns `""`
immediately; exceptions on the fallback calls leave `text = ""`). -/
def tesseract_read (env : OcrEnv) (img_bw : Img2) (config : String)
    (band_name : Option String) : String :=
  if img_bw.size = 0 then ""
  else
    match env.imgToStr img_bw config with
    | none => ""
    | some t0 =>
      let text := pyStrip t0
      let text :=
        if !_looks_like_number text then
          match env.imgToStr img_bw "--oem 1 --psm 8 -c tessedit_char_whitelist=0123456789." with
          | none => ""
          | some t => pyStrip t
        else text
      let text :=
        if !_looks_like_number text && band_name = some "Sacred" then
          match env.imgToStr img_bw "--oem 1 --psm 10 -c tessedit_char_whitelist=0123456789" with
          | none => ""
          | some t => pyStrip t
        else text
      text

/-! ## Locator: modules/achievements/locators/left_rail.py -/

/-- Result of template matching for one shard tile. -/
structure TileHit where
  name : String
  x : Nat
  y : Nat
  w : Nat
  h : Nat
  score : Rat
deriving DecidableEq, Repr

def TILE_ORDER : List String := ["Mystery", "Ancient", "Void", "Primal", "Sacred"]

/-- `NUMBER_ROI` table: number ROI as percent of the estimated tile bbox
`(x%, y%, w%, h%)`, per shard name. -/
def NUMBER_ROI : List (String × (Nat × Nat × Nat × Nat)) :=
  [("Mystery", (6, 74, 35, 20)),
   ("Ancient", (6, 74, 28, 20)),
   ("Void", (6, 74, 28, 20)),
   ("Primal", (6, 74, 28, 20)),
   ("Sacred", (6, 74, 28, 20))]

def ROI_Y_OFFSET_PCT : Nat := 2

/-- Default multi-scale sweep of `match_icons` / `match_corners`. -/
def SCALES : List Rat := [3/5, 7/10, 4/5, 9/10, 1, 11/10, 6/5, 13/10, 7/5, 3/2]

/-- Oracle for `cv2.matchTemplate` + `cv2.minMaxLoc`: given the
(grayscale) haystack, the template name and the resized template size
`(tw, th)`, returns `(max_val, max_loc.x, max_loc.y)`. -/
def MatchOracle : Type := Img2 → String → Nat → Nat → Rat × Nat × Nat

/-- Loaded templates: shard name to template `(height, width)`
(`shape[:2]`); missing assets are simply absent, as in
`load_templates`. -/
def Templates : Type := List (String × (Nat × Nat))

/-- Grayscale normalisation of the haystack performed by both matchers
(`cvtColor` for 3/4-channel input, plain copy for 2-D input). -/
def grayHay (full_img : Img2) : Img2 :=
  if full_img.chn.isSome then Img2.cvtGray full_img else full_img

/-- Scale sweep of the matcher for one template: keep the single
highest-scoring match at or above the 0.65 threshold, skipping scales
whose resized template exceeds the haystack. -/
def bestHitForScales (mm : MatchOracle) (hay : Img2) (name : String)
    (tplH tplW : Nat) : Option TileHit :=
  SCALES.foldl
    (fun best scale =>
      let tw := max 10 (((tplW : Rat) * scale).floor.toNat)
      let th := max 10 (((tplH : Rat) * scale).floor.toNat)
      if hay.h < th || hay.w < tw then best
      else
        let r := mm hay name tw th
        if r.1 < 13/20 then best
        else
          let candidate : TileHit := ⟨name, r.2.1, r.2.2, tw, th, r.1⟩
          match best with
          | none => some candidate
          | some b => if b.score < candidate.score then some candidate else some b)
    none

/-- Stable insertion used to model Python's stable `list.sort(key=y)`. -/
def insertByY (t : TileHit) : List TileHit → List TileHit
  | [] => [t]
  | x :: xs => if x.y ≤ t.y then x :: insertByY t xs else t :: x :: xs

def sortByY (l : List TileHit) : List TileHit :=
  l.foldl (fun acc t => insertByY t acc) []

/-- `match_icons` from `left_rail.py`: per-shard multi-scale template
matching, hits sorted by vertical position. -/
def match_icons (templates : Templates) (mm : MatchOracle) (full_img : Img2) :
    List TileHit :=
  if templates.isEmpty then []
  else
    let hay := grayHay full_img
    let hits := TILE_ORDER.foldl
      (fun hits name =>
        match templates.lookup name with
        | none => hits
        | some td =>
          match bestHitForScales mm hay name td.1 td.2 with
          | none => hits
          | some b => hits ++ [b])
      []
    sortByY hits

/-- `match_corners` from `left_rail.py`: its body is line-for-line the
same algorithm as `match_icons` (same scales, same 0.65 threshold, same
grayscale handling), so it is embedded by the same computation. -/
def match_corners (templates : Templates) (mm : MatchOracle) (full_img : Img2) :
    List TileHit :=
  if templates.isEmpty then []
  else
    let hay := grayHay full_img
    let hits := TILE_ORDER.foldl
      (fun hits name =>
        match templates.lookup name with
        | none => hits
        | some td =>
          match bestHitForScales mm hay name td.1 td.2 with
          | none => hits
          | some b => hits ++ [b])
      []
    sortByY hits

/-- Bounding box `(x, y, w, h)` of a derived number region. -/
def Box : Type := Nat × Nat × Nat × Nat

/-- `tiles_to_number_rois`: expand each icon hit to a tile bbox
(×2.1/×1.9 with a small back-offset) and carve out the per-shard
percentage number region.  Float factors are modelled as exact
rationals; `int(...)` on the non-negative quantities involved is
`floor`, and Python's `max(0, x - d)` is Nat subtraction. -/
def tiles_to_number_rois (full_img : Img2) (hits : List TileHit) :
    List (String × Img2 × Box) :=
  let height := full_img.h
  let width := full_img.w
  hits.map (fun hit =>
    let tile_h := ((hit.h : Rat) * (19/10)).floor.toNat
    let tile_w := ((hit.w : Rat) * (21/10)).floor.toNat
    let tile_x := hit.x - ((hit.w : Rat) * (1/4)).floor.toNat
    let tile_y := hit.y - ((hit.h : Rat) * (7/20)).floor.toNat
    let tile_x2 := min width (tile_x + tile_w)
    let tile_y2 := min height (tile_y + tile_h)
    let rroi := (NUMBER_ROI.lookup hit.name).getD (6, 74, 30, 20)
    let rx := rroi.1
    let ry := rroi.2.1 + ROI_Y_OFFSET_PCT
    let rw := rroi.2.2.1
    let rh := rroi.2.2.2
    let number_x := tile_x + (((rx : Rat) / 100) * ((tile_x2 - tile_x : Nat) : Rat)).floor.toNat
    let number_y := tile_y + (((ry : Rat) / 100) * ((tile_y2 - tile_y : Nat) : Rat)).floor.toNat
    let number_w := (((rw : Rat) / 100) * ((tile_x2 - tile_x : Nat) : Rat)).floor.toNat
    let number_h := (((rh : Rat) / 100) * ((tile_y2 - tile_y : Nat) : Rat)).floor.toNat
    let number_x2 := min width (number_x + number_w)
    let number_y2 := min height (number_y + number_h)
    (hit.name, Img2.slice full_img number_y number_y2 number_x number_x2,
     (number_x, number_y, number_x2 - number_x, number_y2 - number_y)))

/-- `corners_to_number_rois`: same derivation with the corner-crop
expansion factors (×3.2/×1.7, 0.10 back-offsets). -/
def corners_to_number_rois (full_img : Img2) (hits : List TileHit) :
    List (String × Img2 × Box) :=
  let height := full_img.h
  let width := full_img.w
  hits.map (fun hit =>
    let tile_w := ((hit.w : Rat) * (16/5)).floor.toNat
    let tile_h := ((hit.h : Rat) * (17/10)).floor.toNat
    let tile_x := hit.x - ((hit.w : Rat) * (1/10)).floor.toNat
    let tile_y := hit.y - ((hit.h : Rat) * (1/10)).floor.toNat
    let tile_x2 := min width (tile_x + tile_w)
    let tile_y2 := min height (tile_y + tile_h)
    let rroi := (NUMBER_ROI.lookup hit.name).getD (6, 74, 30, 20)
    let rx := rroi.1
    let ry := rroi.2.1 + ROI_Y_OFFSET_PCT
    let rw := rroi.2.2.1
    let rh := rroi.2.2.2
    let number_x := tile_x + (((rx : Rat) / 100) * ((tile_x2 - tile_x : Nat) : Rat)).floor.toNat
    let number_y := tile_y + (((ry : Rat) / 100) * ((tile_y2 - tile_y : Nat) : Rat)).floor.toNat
    let number_w := (((rw : Rat) / 100) * ((tile_x2 - tile_x : Nat) : Rat)).floor.toNat
    let number_h := (((rh : Rat) / 100) * ((tile_y2 - tile_y : Nat) : Rat)).floor.toNat
    let number_x2 := min width (number_x + number_w)
    let number_y2 := min height (number_y + number_h)
    (hit.name, Img2.slice full_img number_y number_y2 number_x number_x2,
     (number_x, number_y, number_x2 - number_x, number_y2 - number_y)))

/-! ## ROI finding with the module-level template cache

The Python module holds `_TEMPLATE_CACHE`, a lazily-populated global.
The embedding threads that global explicitly: each stateful function
takes the cache value before the call and returns it after.  `disk`
stands for what `load_templates()` reads from the asset directory
(fixed for the process lifetime). -/

/-- `_legacy_find_counter_rois` band loop: the last band always extends
to the bottom edge, earlier bands are clipped to the image height. -/
def legacyGo (img : Img2) (bh : Nat) : Nat → List String → List (String × Img2)
  | _, [] => []
  | y0, name :: rest =>
    let y1 := if rest.isEmpty then img.h else min img.h (y0 + bh)
    (name, Img2.slice img y0 y1 0 img.w) :: legacyGo img bh y1 rest

/-- `_legacy_find_counter_rois` from `ocr_pipeline.py`: equal-split
fallback into `len(BAND_ORDER)` horizontal bands. -/
def _legacy_find_counter_rois (full_img : Img2) : List (String × Img2) :=
  if full_img.size = 0 then []
  else if full_img.h = 0 || full_img.w = 0 then []
  else
    let band_height := max (full_img.h / BAND_ORDER.length) 1
    legacyGo full_img band_height 0 BAND_ORDER

/-- `_template_rois_with_boxes` from `ocr_pipeline.py`, with the global
`_TEMPLATE_CACHE` threaded as explicit state (populated from `disk` on
first use; `templates = _TEMPLATE_CACHE or {}` maps an empty cache to
the empty dict, which is the same value here). -/
def _template_rois_with_boxes (disk : Templates) (mm : MatchOracle)
    (cache : Option Templates) (full_img : Img2) :
    List (String × Img2 × Box) × Option Templates :=
  let templates := cache.getD disk
  let icon_hits := match_icons templates mm full_img
  let rois := if !icon_hits.isEmpty then tiles_to_number_rois full_img icon_hits else []
  let rois :=
    if rois.isEmpty then
      let corner_hits := match_corners templates mm full_img
      if !corner_hits.isEmpty then corners_to_number_rois full_img corner_hits else []
    else rois
  (rois, some templates)

/-- `find_counter_rois_with_boxes` from `ocr_pipeline.py`. -/
def find_counter_rois_with_boxes (disk : Templates) (mm : MatchOracle)
    (cache : Option Templates) (full_img : Img2) :
    List (String × Img2 × Box) × Option Templates :=
  let r := _template_rois_with_boxes disk mm cache full_img
  (if 3 ≤ r.1.length then r.1 else [], r.2)

/-- `find_counter_rois` from `ocr_pipeline.py`: template-derived regions
when at least three were found, else the legacy equal-band fallback. -/
def find_counter_rois (disk : Templates) (mm : MatchOracle)
    (cache : Option Templates) (full_img : Img2) :
    List (String × Img2) × Option Templates :=
  let r := _template_rois_with_boxes disk mm cache full_img
  (if 3 ≤ r.1.length then r.1.map (fun p => (p.1, p.2.1))
   else _legacy_find_counter_rois full_img, r.2)

/-! ## Digit reader and orchestrator of ocr_pipeline.py -/

/-- Configuration string of the strict `image_to_data` pass in
`_read_int`. -/
def READ_INT_CFG : String := "--oem 3 --psm 6 -c tessedit_char_whitelist=0123456789,"

/-- Token loop of `_read_int`: keep the non-empty stripped texts paired
with their confidences (`all_texts` / `all_confs`). -/
def readIntAll (data : List (String × Rat)) : List (String × Rat) :=
  data.filterMap (fun tc =>
    if tc.1.data.isEmpty then none
    else
      let cleaned := pyStrip tc.1
      if cleaned.data.isEmpty then none else some (cleaned, tc.2))

/-- Confidence filter of `_read_int` (`texts` / `confs`): drop tokens
below `CONF_FLOOR`. -/
def readIntKept (data : List (String × Rat)) : List (String × Rat) :=
  (readIntAll data).filter (fun p => !decide (p.2 < CONF_FLOOR))

/-- Strict candidate string: joined kept tokens with spaces and commas
removed. -/
def readIntCandA (data : List (String × Rat)) : String :=
  removeChars (fun c => c = ' ' || c = ',')
    (String.join ((readIntKept data).map Prod.fst))

/-- Mean confidence of the kept tokens (`0.0` when none were kept). -/
def readIntConfA (data : List (String × Rat)) : Rat :=
  let confs := (readIntKept data).map Prod.snd
  if confs.isEmpty then 0 else confs.sum / (confs.length : Rat)

/-- Lenient-pass confidence: mean of the non-negative raw confidences.
`np.mean` of an empty selection is NaN in Python; it is modelled as `0`,
which provably never changes which candidate `_read_int` selects (the
strict mean is non-negative, and NaN loses every comparison just as `0`
does against a non-negative value). -/
def readIntConfB (data : List (String × Rat)) : Rat :=
  let pos := ((readIntAll data).map Prod.snd).filter (fun c => 0 ≤ c)
  if (readIntAll data).isEmpty then 0 else pos.sum / (pos.length : Rat)

/-- Python tuple comparison used by `_score` in `_read_int`
(`(len(raw), confidence)`, lexicographic `>`). -/
def scoreGtLex (a b : Nat × Rat) : Bool :=
  decide (b.1 < a.1) || (decide (a.1 = b.1) && decide (b.2 < a.2))

/-- Candidate selection at the end of `_read_int`:
`if cand_b and _score(cand_b, conf_b) > _score(cand_a, conf_a)`. -/
def readIntChoice (cand_a : String) (conf_a : Rat) (cand_b : String) (conf_b : Rat) :
    String × Rat :=
  if !cand_b.data.isEmpty &&
      scoreGtLex (cand_b.data.length, conf_b) (cand_a.data.length, conf_a) then
    (cand_b, conf_b)
  else (cand_a, conf_a)

/-- `_read_int` from `ocr_pipeline.py`: strict confidence-filtered
`image_to_data` pass, optional lenient rescue pass when tokens were
dropped, lexicographic `(length, confidence)` winner, digit parse. -/
def _read_int (env : OcrEnv) (name : String) (roi_np : Img2) : Int × Rat × String :=
  if roi_np.size = 0 then (0, 0, "")
  else
    match _prep_bin roi_np with
    | none => (0, 0, "")
    | some binimg =>
      match env.imageToData binimg READ_INT_CFG with
      | none => (0, 0, "")
      | some data =>
        let total := (readIntAll data).length
        let kept := (readIntKept data).length
        let cand_a := readIntCandA data
        let conf_a := readIntConfA data
        let bPair :=
          if 0 < total && decide (kept < total) then
            (_lenient_digits env binimg, readIntConfB data)
          else ("", 0)
        let best := readIntChoice cand_a conf_a bPair.1 bPair.2
        let value : Int := if pyIsdigit best.1 then (digitsVal best.1 : Int) else 0
        (value, best.2, best.1)

/-- Values of the heterogeneous `metadata` dict of `_read_band`. -/
inductive MVal
  | s (v : String)
  | r (v : Rat)
  | i (v : Int)
deriving DecidableEq, Repr

/-- `OcrBand` from `ocr_pipeline.py`. -/
structure OcrBand where
  name : String
  text : String
  confidence : Rat
  metadata : List (String × MVal)
deriving DecidableEq, Repr

/-- `_read_band` from `ocr_pipeline.py`: data-pass read with the legacy
`preprocess_for_ocr` + `tesseract_read` + `normalize_count` fallback
when the data pass produced nothing. -/
def _read_band (env : OcrEnv) (name : String) (roi : Img2) :
    Int × Rat × String × List (String × MVal) :=
  let vcr := _read_int env name roi
  let value := vcr.1
  let mean_conf := vcr.2.1
  let raw := vcr.2.2
  let metadata : List (String × MVal) :=
    [("band_name", .s name), ("reader", .s "data"),
     ("data_raw", .s raw), ("data_conf", .r mean_conf)]
  let state :=
    if value = 0 && raw.data.isEmpty then
      let fallback_text :=
        match preprocess_for_ocr roi (some name) with
        | none => ""
        | some prep => tesseract_read env prep DEFAULT_CONFIG (some name)
      let metadata := dinsert metadata "legacy_raw" (.s fallback_text)
      match normalize_count fallback_text with
      | some parsed =>
          (parsed, (-1 : Rat), fallback_text,
           dinsert metadata "reader" (.s "legacy"))
      | none => (value, mean_conf, raw, metadata)
    else (value, mean_conf, raw, metadata)
  let metadata := dinsert state.2.2.2 "value" (.i state.1)
  let metadata := dinsert metadata "text" (.s state.2.2.1)
  (state.1, state.2.1, state.2.2.1, metadata)

/-- Loop body of `read_counters`: record the band value in the
`results` dict and append the `OcrBand`. -/
def countersStep (env : OcrEnv) (acc : List (String × Int) × List OcrBand)
    (nr : String × Img2) : List (String × Int) × List OcrBand :=
  let b := _read_band env nr.1 nr.2
  (dinsert acc.1 nr.1 b.1, acc.2 ++ [⟨nr.1, b.2.2.1, b.2.1, b.2.2.2⟩])

/-- `read_counters` from `ocr_pipeline.py`, with the template cache
threaded (it is reached through `find_counter_rois`).  Returns the
`{"counts": ..., "bands": ...}` payload and the cache after the call. -/
def read_counters (disk : Templates) (mm : MatchOracle) (env : OcrEnv)
    (cache : Option Templates) (full_img : Img2) :
    (List (String × Int) × List OcrBand) × Option Templates :=
  let rc := find_counter_rois disk mm cache full_img
  (rc.1.foldl (countersStep env) ([], []), rc.2)

end C1C.Pipeline

namespace C1C

/-! ## Sanity theorems for the easy claims -/

/-- Claim C8: the image normalizer's upscale factor `_scale_if_small` is
exactly 2.0 below 900 px width, 1.5 for widths in [900, 1300), and 1.0
from 1300 px up. -/
theorem c8_scale_if_small (w h : Nat) :
    (w < 900 → Shards._scale_if_small w h = 2) ∧
    (900 ≤ w → w < 1300 → Shards._scale_if_small w h = 3/2) ∧
    (1300 ≤ w → Shards._scale_if_small w h = 1) := by
  unfold Shards._scale_if_small
  refine ⟨fun hw => by simp [hw], fun h₁ h₂ => ?_, fun h₁ => ?_⟩
  · rw [if_neg (by omega), if_pos h₂]
  · rw [if_neg (by omega), if_neg (by omega)]

/-- Witness for C8 at concrete widths in each of the three ranges. -/
theorem c8_scale_if_small_witness :
    Shards._scale_if_small 500 100 = 2 ∧
    Shards._scale_if_small 1000 100 = 3/2 ∧
    Shards._scale_if_small 1920 100 = 1 :=
  ⟨(c8_scale_if_small 500 100).1 (by decide),
   (c8_scale_if_small 1000 100).2.1 (by decide) (by decide),
   (c8_scale_if_small 1920 100).2.2 (by decide)⟩

/-- Counterexample to claim C6 as stated: `_parse_num_token` does not
reject the letter-only token `"l"`; `_normalize_digits` first coerces it
to `"1"`, so the parse returns 1, not a rejection/zero. -/
theorem c6_counterexample : Shards._parse_num_token "l" = 1 ∧ (1 : Int) ≠ 0 := by
  constructor
  · rfl
  · decide

/-- Claim C6 amended: `normalize_count` maps `"1,610"`, `"1.610"` and
`"1 610"` to 1610 and rejects the letter-only tokens `"l"` and `"O"`
(returns `None`); `_parse_num_token` also maps the three separator forms
to 1610, but applies the confusable translation to every token first, so
it coerces `"l"` to 1 and `"O"` to 0 instead of rejecting them. -/
theorem c6_amended :
    Pipeline.normalize_count "1,610" = some 1610 ∧
    Pipeline.normalize_count "1.610" = some 1610 ∧
    Pipeline.normalize_count "1 610" = some 1610 ∧
    Pipeline.normalize_count "l" = none ∧
    Pipeline.normalize_count "O" = none ∧
    Shards._parse_num_token "1,610" = 1610 ∧
    Shards._parse_num_token "1.610" = 1610 ∧
    Shards._parse_num_token "1 610" = 1610 ∧
    Shards._parse_num_token "l" = 1 ∧
    Shards._parse_num_token "O" = 0 := by
  refine ⟨rfl, rfl, rfl, rfl, rfl, rfl, rfl, rfl, rfl, rfl⟩

end C1C

namespace C1C

/-! ## Dictionary lemmas -/

theorem dkeys_dinsert {K V : Type} [DecidableEq K] (d : List (K × V)) (k : K) (v : V) :
    dkeys (dinsert d k v) = if k ∈ dkeys d then dkeys d else dkeys d ++ [k] := by
  induction d with
  | nil => simp [dinsert, dkeys]
  | cons p rest ih =>
    rcases p with ⟨k', v'⟩
    by_cases h : k' = k
    · subst h
      simp [dinsert, dkeys]
    · simp only [dinsert, if_neg h, dkeys, List.map_cons] at ih ⊢
      rw [ih]
      by_cases hm : k ∈ rest.map Prod.fst
      · simp [hm, List.mem_cons, Ne.symm h]
      · simp [hm, List.mem_cons, Ne.symm h]

theorem dkeys_foldl_dinsert {K V A : Type} [DecidableEq K] (f : A → K) (g : A → V)
    (l : List A) : ∀ d : List (K × V),
    dkeys (l.foldl (fun d a => dinsert d (f a) (g a)) d)
      = dkeys d ++ firstDedupAux (dkeys d) (l.map f) := by
  induction l with
  | nil => intro d; simp [firstDedupAux]
  | cons a l ih =>
    intro d
    simp only [List.foldl_cons, List.map_cons, firstDedupAux]
    rw [ih, dkeys_dinsert]
    by_cases hm : f a ∈ dkeys d
    · simp [hm]
    · simp [hm, List.append_assoc]

/-- Keys and band names produced by the `read_counters` loop. -/
theorem countersFold_spec (env : Pipeline.OcrEnv) (rois : List (String × Pipeline.Img2)) :
    ∀ (d : List (String × Int)) (b : List Pipeline.OcrBand),
    dkeys ((rois.foldl (Pipeline.countersStep env) (d, b)).1)
      = dkeys d ++ firstDedupAux (dkeys d) (rois.map Prod.fst) ∧
    ((rois.foldl (Pipeline.countersStep env) (d, b)).2).map Pipeline.OcrBand.name
      = b.map Pipeline.OcrBand.name ++ rois.map Prod.fst := by
  induction rois with
  | nil => intro d b; simp [firstDedupAux]
  | cons nr rois ih =>
    intro d b
    simp only [List.foldl_cons, Pipeline.countersStep, List.map_cons, firstDedupAux]
    constructor
    · rw [(ih _ _).1, dkeys_dinsert]
      by_cases hm : nr.1 ∈ dkeys d
      · simp [hm]
      · simp [hm, List.append_assoc]
    · rw [(ih _ _).2]
      simp

end C1C

namespace C1C

/-! ## Locator fallback (claim C3) -/

/-- The two matcher functions of `left_rail.py` have identical bodies. -/
theorem match_corners_eq_match_icons :
    Pipeline.match_corners = Pipeline.match_icons := rfl

theorem tiles_length (full_img : Pipeline.Img2) (hits : List Pipeline.TileHit) :
    (Pipeline.tiles_to_number_rois full_img hits).length = hits.length := by
  simp [Pipeline.tiles_to_number_rois]

/-- Closed form of the legacy equal-band splitter on a non-empty image:
five full-width contiguous bands in `BAND_ORDER`, with cumulative `y`
cuts at `min h (k * bh)` for `bh = max (h / 5) 1` and the last band
extended to the bottom edge. -/
theorem legacy_closed_form (img : Pipeline.Img2) (hs : img.size ≠ 0) :
    Pipeline._legacy_find_counter_rois img =
      [("Mystery", Pipeline.Img2.slice img 0 (min img.h (max (img.h / 5) 1)) 0 img.w),
       ("Ancient", Pipeline.Img2.slice img (min img.h (max (img.h / 5) 1))
          (min img.h (2 * max (img.h / 5) 1)) 0 img.w),
       ("Void", Pipeline.Img2.slice img (min img.h (2 * max (img.h / 5) 1))
          (min img.h (3 * max (img.h / 5) 1)) 0 img.w),
       ("Primal", Pipeline.Img2.slice img (min img.h (3 * max (img.h / 5) 1))
          (min img.h (4 * max (img.h / 5) 1)) 0 img.w),
       ("Sacred", Pipeline.Img2.slice img (min img.h (4 * max (img.h / 5) 1))
          img.h 0 img.w)] := by
  have hh : img.h ≠ 0 := by
    intro h0
    exact hs (by simp [Pipeline.Img2.size, h0])
  have hw : img.w ≠ 0 := by
    intro h0
    exact hs (by simp [Pipeline.Img2.size, h0])
  unfold Pipeline._legacy_find_counter_rois
  rw [if_neg hs, if_neg (by simp [hh, hw])]
  rw [show Pipeline.BAND_ORDER = ["Mystery", "Ancient", "Void", "Primal", "Sacred"] from rfl]
  rw [show (["Mystery", "Ancient", "Void", "Primal", "Sacred"] : List String).length = 5 from rfl]
  set bh := max (img.h / 5) 1 with hbh
  simp only [Pipeline.legacyGo, List.isEmpty_cons, List.isEmpty_nil, Bool.false_eq_true,
    if_false, eq_self_iff_true, if_true]
  rw [Nat.zero_add]
  rw [show min img.h (min img.h bh + bh) = min img.h (2 * bh) by omega]
  rw [show min img.h (min img.h (2 * bh) + bh) = min img.h (3 * bh) by omega]
  rw [show min img.h (min img.h (3 * bh) + bh) = min img.h (4 * bh) by omega]

end C1C

namespace C1C

/-- With fewer than three matched icons, the locator returns the legacy
bands for all five regions and caches the templates. -/
theorem find_counter_rois_fallback (disk : Pipeline.Templates) (mm : Pipeline.MatchOracle)
    (cache : Option Pipeline.Templates) (img : Pipeline.Img2)
    (hhits : (Pipeline.match_icons (cache.getD disk) mm img).length < 3) :
    Pipeline.find_counter_rois disk mm cache img
      = (Pipeline._legacy_find_counter_rois img, some (cache.getD disk)) := by
  unfold Pipeline.find_counter_rois Pipeline._template_rois_with_boxes
  rw [match_corners_eq_match_icons]
  cases hI : Pipeline.match_icons (cache.getD disk) mm img with
  | nil => simp [hI]
  | cons hit hits =>
    rw [hI] at hhits
    simp only [List.length_cons] at hhits
    have h1 : (Pipeline.tiles_to_number_rois img (hit :: hits)).isEmpty = false := by
      simp [Pipeline.tiles_to_number_rois]
    have h2 : ¬ 3 ≤ (Pipeline.tiles_to_number_rois img (hit :: hits)).length := by
      rw [tiles_length]
      simp only [List.length_cons]
      omega
    simp [hI, h1, h2]

/-- The legacy bands carry the five names in `BAND_ORDER`. -/
theorem legacy_names (img : Pipeline.Img2) (hs : img.size ≠ 0) :
    (Pipeline._legacy_find_counter_rois img).map Prod.fst = Pipeline.BAND_ORDER := by
  rw [legacy_closed_form img hs]
  rfl

/-- Claim C3 amended: when fewer than three of the five shard icons are
matched at or above the locator threshold, `find_counter_rois` abandons
template geometry entirely and returns the legacy band split — five
full-width horizontal bands in `BAND_ORDER` (ShardType declaration
order) that tile the image top to bottom, never mixed with
template-derived regions.  The bands are equal only up to integer
division: for images at least 5 px tall the first four bands are
`⌊h/5⌋` rows high and the fifth extends to the bottom edge, absorbing
the remainder `h mod 5`. -/
theorem c3_amended (disk : Pipeline.Templates) (mm : Pipeline.MatchOracle)
    (cache : Option Pipeline.Templates) (img : Pipeline.Img2)
    (hs : img.size ≠ 0)
    (hhits : (Pipeline.match_icons (cache.getD disk) mm img).length < 3) :
    Pipeline.find_counter_rois disk mm cache img
      = (Pipeline._legacy_find_counter_rois img, some (cache.getD disk)) ∧
    (Pipeline._legacy_find_counter_rois img).map Prod.fst = Pipeline.BAND_ORDER ∧
    (5 ≤ img.h →
      (Pipeline._legacy_find_counter_rois img).map (fun p => (p.2).h)
        = [img.h / 5, img.h / 5, img.h / 5, img.h / 5, img.h - 4 * (img.h / 5)]) := by
  refine ⟨find_counter_rois_fallback disk mm cache img hhits, legacy_names img hs, ?_⟩
  intro h5
  rw [legacy_closed_form img hs]
  simp only [List.map_cons, List.map_nil, Pipeline.Img2.h, List.cons.injEq, and_true]
  omega

def c3disk : Pipeline.Templates := []

def c3mm : Pipeline.MatchOracle := fun _ _ _ _ => ((0 : Rat), 0, 0)

def c3img : Pipeline.Img2 := Pipeline.Img2.mat 10 10 (some 3)

/-- Witness for C3 at a 10×10 image with no templates on disk (zero
icons matched). -/
theorem c3_amended_witness :
    Pipeline.find_counter_rois c3disk c3mm none c3img
      = (Pipeline._legacy_find_counter_rois c3img,
         some ((none : Option Pipeline.Templates).getD c3disk)) ∧
    (Pipeline._legacy_find_counter_rois c3img).map Prod.fst = Pipeline.BAND_ORDER ∧
    (5 ≤ c3img.h →
      (Pipeline._legacy_find_counter_rois c3img).map (fun p => (p.2).h)
        = [c3img.h / 5, c3img.h / 5, c3img.h / 5, c3img.h / 5,
           c3img.h - 4 * (c3img.h / 5)]) :=
  c3_amended c3disk c3mm none c3img (by decide) (by decide)

def c3cimg : Pipeline.Img2 := Pipeline.Img2.mat 7 10 (some 3)

/-- Counterexample to claim C3 as stated: on a 7-row image with zero
icons matched, the fallback bands have heights 1, 1, 1, 1 and 3 — the
five bands are not equal. -/
theorem c3_counterexample :
    (Pipeline.find_counter_rois c3disk c3mm none c3cimg).1.map (fun p => (p.2).h)
      = [1, 1, 1, 1, 3] ∧
    ¬ List.Pairwise (fun a b => a = b)
        ((Pipeline.find_counter_rois c3disk c3mm none c3cimg).1.map (fun p => (p.2).h)) := by
  exact ⟨by decide, by decide⟩

/-! ## ROI preprocessing footprint (claim C4) -/

/-- Claim C4 amended: on every non-empty crop, `preprocess_for_ocr`
succeeds and returns an image whose spatial footprint is exactly twice
the input's in each dimension (the ROI is never discarded: the output is
non-empty), not the same footprint as the input. -/
theorem c4_amended (img : Pipeline.Img2) (band : Option String) (hs : img.size ≠ 0) :
    ∃ out, Pipeline.preprocess_for_ocr img band = some out ∧
      out.w = 2 * img.w ∧ out.h = 2 * img.h ∧ out.size ≠ 0 := by
  have hh : img.h ≠ 0 := by
    intro h0
    exact hs (by simp [Pipeline.Img2.size, h0])
  have hw : img.w ≠ 0 := by
    intro h0
    exact hs (by simp [Pipeline.Img2.size, h0])
  unfold Pipeline.preprocess_for_ocr
  rw [if_neg hs]
  by_cases hb : band = some "Sacred" <;> by_cases hg : img.chn.isNone <;>
    simp [hb, hg, Pipeline.Img2.w, Pipeline.Img2.h, Pipeline.Img2.size, Pipeline.Img2.chn,
      hh, hw, Nat.mul_ne_zero_iff]

/-- Witness for C4 at a concrete 3×4 BGR crop. -/
theorem c4_amended_witness :
    ∃ out, Pipeline.preprocess_for_ocr (Pipeline.Img2.mat 3 4 (some 3)) none = some out ∧
      out.w = 2 * (Pipeline.Img2.mat 3 4 (some 3)).w ∧
      out.h = 2 * (Pipeline.Img2.mat 3 4 (some 3)).h ∧
      out.size ≠ 0 :=
  c4_amended (Pipeline.Img2.mat 3 4 (some 3)) none (by decide)

/-- Counterexample to claim C4 as stated: a 3×4 crop comes back from
`preprocess_for_ocr` with width 8, not its own width 4 — the spatial
footprint is doubled, not preserved. -/
theorem c4_counterexample :
    (Pipeline.preprocess_for_ocr (Pipeline.Img2.mat 3 4 (some 3)) none).map Pipeline.Img2.w
      = some 8 ∧
    (Pipeline.Img2.mat 3 4 (some 3)).w = 4 ∧ (8 : Nat) ≠ 4 := by
  exact ⟨by decide, by decide, by decide⟩

end C1C

namespace C1C

/-! ## Strict/lenient candidate selection in `_read_int` (claim C5) -/

/-- Claim C5 amended: when the strict pass dropped at least one token
and the lenient pass produced a candidate, `_read_int` selects by the
lexicographic order on `(length, confidence)`: the lenient candidate
wins when it is strictly longer — regardless of its confidence, even if
strictly worse — or when it is equally long with strictly higher
confidence; otherwise the strict candidate is kept.  (The claim's rule
"longer while its confidence is not worse" is neither necessary nor
sufficient in the code.)  The first conjunct characterises the selection
rule; the second shows `_read_int` routes the strict candidate, the
lenient `_lenient_digits` output and their confidences through exactly
that rule whenever tokens were dropped. -/
theorem c5_amended :
    (∀ (cand_a cand_b : String) (conf_a conf_b : Rat),
       (cand_b.data.isEmpty = false ∧
           (cand_a.length < cand_b.length ∨
            (cand_b.length = cand_a.length ∧ conf_a < conf_b)) →
          Pipeline.readIntChoice cand_a conf_a cand_b conf_b = (cand_b, conf_b)) ∧
       (¬(cand_b.data.isEmpty = false ∧
           (cand_a.length < cand_b.length ∨
            (cand_b.length = cand_a.length ∧ conf_a < conf_b))) →
          Pipeline.readIntChoice cand_a conf_a cand_b conf_b = (cand_a, conf_a))) ∧
    (∀ (env : Pipeline.OcrEnv) (name : String) (roi binimg : Pipeline.Img2)
        (data : List (String × Rat)),
       roi.size ≠ 0 →
       Pipeline._prep_bin roi = some binimg →
       env.imageToData binimg Pipeline.READ_INT_CFG = some data →
       0 < (Pipeline.readIntAll data).length →
       (Pipeline.readIntKept data).length < (Pipeline.readIntAll data).length →
       Pipeline._read_int env name roi =
         (let best := Pipeline.readIntChoice (Pipeline.readIntCandA data)
            (Pipeline.readIntConfA data) (Pipeline._lenient_digits env binimg)
            (Pipeline.readIntConfB data)
          ((if pyIsdigit best.1 then (digitsVal best.1 : Int) else 0), best.2, best.1))) := by
  constructor
  · intro cand_a cand_b conf_a conf_b
    constructor
    · rintro ⟨hb, hscore⟩
      have hcond : (!cand_b.data.isEmpty &&
          Pipeline.scoreGtLex (cand_b.data.length, conf_b) (cand_a.data.length, conf_a)) = true := by
        rw [hb]
        rcases hscore with h | ⟨h1, h2⟩
        · simp [Pipeline.scoreGtLex, h]
        · simp [Pipeline.scoreGtLex, h1, h2]
      unfold Pipeline.readIntChoice
      rw [if_pos hcond]
    · intro hn
      unfold Pipeline.readIntChoice
      rw [if_neg]
      intro hcond
      apply hn
      simp only [Bool.and_eq_true] at hcond
      obtain ⟨h1, h2⟩ := hcond
      refine ⟨by simpa using h1, ?_⟩
      simp only [Pipeline.scoreGtLex, Bool.or_eq_true, Bool.and_eq_true,
        decide_eq_true_eq] at h2
      simpa using h2
  · intro env name roi binimg data hs hpb hdata h1 h2
    unfold Pipeline._read_int
    rw [if_neg hs, hpb]
    dsimp only
    rw [hdata]
    dsimp only
    have hc : (decide (0 < (Pipeline.readIntAll data).length) &&
        decide ((Pipeline.readIntKept data).length < (Pipeline.readIntAll data).length)) = true := by
      simp [h1, h2]
    rw [hc]
    simp

def c5roi : Pipeline.Img2 := Pipeline.Img2.mat 5 10 (some 3)

def c5bin : Pipeline.Img2 :=
  Pipeline.Img2.adaptiveThresh (Pipeline.Img2.medianBlur (Pipeline.Img2.cvtGray c5roi)) 31 9

def c5data : List (String × Rat) := [("12", 80), ("7", 5)]

def c5env : Pipeline.OcrEnv :=
  { imageToData := fun _ _ => some c5data, imgToStr := fun _ _ => some "129" }

/-- Witness for C5: the selection rule at concrete candidates, and
`_read_int` at a concrete environment in which the strict pass dropped a
token. -/
theorem c5_amended_witness :
    Pipeline.readIntChoice "12" 80 "129" (85/2) = ("129", 85/2) ∧
    Pipeline._read_int c5env "Mystery" c5roi =
      (let best := Pipeline.readIntChoice (Pipeline.readIntCandA c5data)
         (Pipeline.readIntConfA c5data) (Pipeline._lenient_digits c5env c5bin)
         (Pipeline.readIntConfB c5data)
       ((if pyIsdigit best.1 then (digitsVal best.1 : Int) else 0), best.2, best.1)) :=
  ⟨(c5_amended.1 "12" "129" 80 (85/2)).1 ⟨by decide, by decide⟩,
   c5_amended.2 c5env "Mystery" c5roi c5bin c5data (by decide) (by rfl) (by rfl)
     (by decide) (by decide)⟩

/-- Counterexample to claim C5 as stated: the strict candidate is `"12"`
with mean confidence 80; the lenient candidate `"129"` has strictly
worse confidence 42.5, yet `_read_int` selects it because it is longer —
the claim's "only if its confidence is not worse" is violated. -/
theorem c5_counterexample :
    Pipeline._read_int c5env "Mystery" c5roi = (129, 85/2, "129") ∧
    Pipeline.readIntCandA c5data = "12" ∧
    Pipeline.readIntConfA c5data = 80 ∧
    (85/2 : Rat) < 80 := by
  exact ⟨by decide, by rfl, by rfl, by decide⟩

end C1C

namespace C1C

/-! ## Exception behaviour of the shards pipeline

`cogs/shards/ocr.py` line 685 compares the two per-band picks with
`_score_band_token(*(pick or ("", -1.0)))`.  A non-`None` pick is a
`(text, conf, cfg)` 3-tuple, and unpacking it into the 2-parameter
`_score_band_token` raises `TypeError`; the only raise-free path through
a band is the one with no pick at all, which appends a zero count.  The
outer `except` of the entry point absorbs the error, so the entry point
can only ever produce the all-zero count dict — which it then collapses
to the empty dict. -/

theorem except_bind_ok {ε α β : Type} (a : α) (k : α → Except ε β) :
    (Except.ok a >>= k) = k a := rfl

theorem except_bind_error {ε α β : Type} (e : ε) (k : α → Except ε β) :
    ((Except.error e : Except ε α) >>= k) = Except.error e := rfl

theorem except_ok_of_bind {ε α β : Type} {x : Except ε α} {k : α → Except ε β} {b : β}
    (h : (x >>= k) = .ok b) : ∃ a, x = .ok a ∧ k a = .ok b := by
  cases x with
  | error e => rw [except_bind_error] at h; exact absurd h (by simp)
  | ok a => exact ⟨a, rfl, h⟩

/-- The pick comparison completes only when both picks are `None`, in
which case the band count is 0. -/
theorem pickCompare_ok (micro main : Option (String × Rat × String))
    (acc out : List Int)
    (h : ((do
      let scoreMicro ← Shards.scoreOfPick micro
      let scoreMain ← Shards.scoreOfPick main
      let best_pick := if Shards.scoreGt scoreMicro scoreMain then micro else main
      match best_pick with
      | none => pure (acc ++ [(0 : Int)])
      | some p => pure (acc ++ [Shards._parse_num_token p.1])) :
      Except Shards.PyErr (List Int)) = .ok out) : out = acc ++ [0] := by
  cases micro with
  | some m => rw [show Shards.scoreOfPick (some m) = .error .typeErr from rfl,
      except_bind_error] at h; exact absurd h (by simp)
  | none =>
    cases main with
    | some m =>
      rw [show Shards.scoreOfPick none = .ok (Shards._score_band_token "" (-1)) from rfl,
        except_bind_ok, show Shards.scoreOfPick (some m) = .error .typeErr from rfl,
        except_bind_error] at h
      exact absurd h (by simp)
    | none =>
      simp only [show Shards.scoreOfPick none = .ok (Shards._score_band_token "" (-1)) from rfl,
        except_bind_ok, ite_self] at h
      exact (Except.ok.inj h).symm

theorem bandRead_ok (env : Shards.Env) (ag : Bool) (roi : Shards.PImg)
    (tokens : List Shards.Tok) (band_h : Rat) (max_x : Nat) (acc : List Int)
    (band : Nat) (out : List Int)
    (h : Shards.bandRead env ag roi tokens band_h max_x acc band = .ok out) :
    out = acc ++ [0] := by
  unfold Shards.bandRead at h
  exact pickCompare_ok _ _ acc out h

theorem foldlM_bandRead (env : Shards.Env) (ag : Bool) (roi : Shards.PImg)
    (tokens : List Shards.Tok) (band_h : Rat) (max_x : Nat) :
    ∀ (l : List Nat) (acc out : List Int),
    l.foldlM (Shards.bandRead env ag roi tokens band_h max_x) acc = .ok out →
    out = acc ++ List.replicate l.length 0 := by
  intro l
  induction l with
  | nil =>
    intro acc out h
    simp only [List.foldlM_nil] at h
    simp [(Except.ok.inj h).symm]
  | cons b l ih =>
    intro acc out h
    rw [List.foldlM_cons] at h
    obtain ⟨mid, hmid, hrest⟩ := except_ok_of_bind h
    have hm := bandRead_ok env ag roi tokens band_h max_x acc b mid hmid
    subst hm
    have := ih _ out hrest
    simp [this, List.replicate_succ]

/-- The all-zero count dict in `ShardType` order. -/
def zeroCounts : List (ShardType × Int) :=
  [(.mystery, 0), (.ancient, 0), (.void, 0), (.primal, 0), (.sacred, 0)]

/-- `_read_counts_from_roi_impl` either raises or returns all-zero
counts with score 0. -/
theorem impl_ok (env : Shards.Env) (roi : Shards.PImg) (ag : Bool)
    (r : List (ShardType × Int) × Nat)
    (h : Shards._read_counts_from_roi_impl env roi ag = .ok r) :
    r = (zeroCounts, 0) := by
  unfold Shards._read_counts_from_roi_impl at h
  obtain ⟨cb, hcb, hk⟩ := except_ok_of_bind h
  have h5 := foldlM_bandRead _ _ _ _ _ _ (List.range 5) [] cb hcb
  simp only [List.length_range, List.nil_append] at h5
  subst h5
  exact (Except.ok.inj hk).symm.trans rfl

/-- `_read_counts_from_roi` either raises or returns all-zero counts
with score 0. -/
theorem roi_read_ok (env : Shards.Env) (roi : Shards.PImg)
    (r : List (ShardType × Int) × Nat)
    (h : Shards._read_counts_from_roi env roi = .ok r) : r = (zeroCounts, 0) := by
  unfold Shards._read_counts_from_roi at h
  obtain ⟨p, hp, hk⟩ := except_ok_of_bind h
  have hp0 := impl_ok env roi false p hp
  subst hp0
  simp only [zeroCounts] at hk
  norm_num at hk
  obtain ⟨q, hq, hk2⟩ := except_ok_of_bind hk
  have hq0 := impl_ok env roi true q hq
  subst hq0
  simp only [zeroCounts] at hk2
  norm_num at hk2
  exact (Except.ok.inj hk2).symm

end C1C

namespace C1C

/-- Crop-ratio sweep invariant: starting from the `({}, -1)` accumulator,
a completed sweep ends at the initial accumulator or at the all-zero
counts. -/
theorem ratio_fold_ok (env : Shards.Env) (base : Shards.PImg) :
    ∀ (l : List Rat) (best out : List (ShardType × Int) × Int),
    (best = ([], (-1 : Int)) ∨ best = (zeroCounts, 0)) →
    l.foldlM (Shards.ratioStep env base) best = .ok out →
    (out = ([], (-1 : Int)) ∨ out = (zeroCounts, 0)) := by
  intro l
  induction l with
  | nil =>
    intro best out hb h
    simp only [List.foldlM_nil] at h
    rw [← Except.ok.inj h]
    exact hb
  | cons rr l ih =>
    intro best out hb h
    rw [List.foldlM_cons] at h
    obtain ⟨mid, hmid, hrest⟩ := except_ok_of_bind h
    unfold Shards.ratioStep at hmid
    obtain ⟨q, hq, hk⟩ := except_ok_of_bind hmid
    have hq0 := roi_read_ok env _ q hq
    subst hq0
    refine ih mid out ?_ hrest
    rcases hb with rfl | rfl
    · right
      norm_num at hk
      exact (Except.ok.inj hk).symm
    · right
      norm_num [zeroCounts] at hk
      rw [← Except.ok.inj hk]
      rfl

/-- Tail of `extract_counts_body` after a successful decode: it either
raises or produces the empty dict. -/
theorem body_tail_ok (env : Shards.Env) (base : Shards.PImg) :
    ((do
      let best ← Shards.CROP_RATIOS.foldlM (Shards.ratioStep env base) ([], (-1 : Int))
      let counts := ShardType.all.foldl (fun d st => dsetdefault d st 0) best.1
      if dvaluesSum counts = 0 then pure [] else pure counts :
      Except Shards.PyErr (List (ShardType × Int))) = .ok [] ∨
     ∃ e, ((do
      let best ← Shards.CROP_RATIOS.foldlM (Shards.ratioStep env base) ([], (-1 : Int))
      let counts := ShardType.all.foldl (fun d st => dsetdefault d st 0) best.1
      if dvaluesSum counts = 0 then pure [] else pure counts :
      Except Shards.PyErr (List (ShardType × Int))) = .error e)) := by
  cases hf : Shards.CROP_RATIOS.foldlM (Shards.ratioStep env base) ([], (-1 : Int)) with
  | error e => right; exact ⟨e, rfl⟩
  | ok best =>
    have hb := ratio_fold_ok env base Shards.CROP_RATIOS ([], (-1 : Int)) best (Or.inl rfl) hf
    left
    rcases hb with rfl | rfl <;> rfl

/-- `extract_counts_body` returns the empty dict or raises. -/
theorem body_spec (env : Shards.Env) :
    Shards.extract_counts_body env = .ok [] ∨
    ∃ e, Shards.extract_counts_body env = .error e := by
  unfold Shards.extract_counts_body
  cases hav : env.available with
  | false => left; rfl
  | true =>
    cases hdec : env.decode with
    | none => right; exact ⟨.decodeErr, rfl⟩
    | some wh => exact body_tail_ok env _

/-- The extraction entry point always returns the empty dict: every
raise is absorbed by the outer `except`, and a raise-free run can only
read all-zero bands (see `pickCompare_ok`), which the final check
collapses to `{}`. -/
theorem shards_extract_empty (env : Shards.Env) :
    Shards.extract_counts_from_image_bytes env = [] := by
  unfold Shards.extract_counts_from_image_bytes
  rcases body_spec env with h | ⟨e, h⟩ <;> rw [h]

end C1C

namespace C1C

/-! ## Iteration order of the outputs (claim C7) -/

def pOcr0 : Pipeline.OcrEnv := ⟨fun _ _ => none, fun _ _ => none⟩

def c7env0 : Shards.Env := ⟨true, some (10, 10), fun _ _ => none, fun _ => true⟩

/-- Claim C7 amended: `_read_counts_from_roi_impl` always assembles its
counts dict in the fixed ShardType declaration order, and `read_counters`
iterates in that order whenever the equal-band fallback ran; but in the
template path `read_counters` iterates in ascending matched-icon
y-position (the `hits.sort(key=lambda hit: hit.y)` in `match_icons`),
which coincides with declaration order only when the icons are matched
top-to-bottom in that order. -/
theorem c7_amended :
    (∀ (env : Shards.Env) (roi : Shards.PImg) (ag : Bool)
        (r : List (ShardType × Int) × Nat),
       Shards._read_counts_from_roi_impl env roi ag = .ok r →
       dkeys r.1 = ShardType.all) ∧
    (∀ (disk : Pipeline.Templates) (mm : Pipeline.MatchOracle) (env : Pipeline.OcrEnv)
        (cache : Option Pipeline.Templates) (img : Pipeline.Img2),
       img.size ≠ 0 →
       (Pipeline.match_icons (cache.getD disk) mm img).length < 3 →
       ((Pipeline.read_counters disk mm env cache img).1.2).map Pipeline.OcrBand.name
           = Pipeline.BAND_ORDER ∧
       dkeys ((Pipeline.read_counters disk mm env cache img).1.1) = Pipeline.BAND_ORDER) := by
  constructor
  · intro env roi ag r h
    rw [impl_ok env roi ag r h]
    rfl
  · intro disk mm env cache img hs hhits
    have hfind := find_counter_rois_fallback disk mm cache img hhits
    have hnames := legacy_names img hs
    unfold Pipeline.read_counters
    rw [hfind]
    dsimp only
    have hspec := countersFold_spec env (Pipeline._legacy_find_counter_rois img) [] []
    constructor
    · rw [hspec.2, hnames]
      rfl
    · rw [hspec.1, hnames]
      rfl

/-- Witness for C7: the Shards conjunct at an environment whose OCR
returns nothing (the only completing run), and the Pipeline conjunct at
a 10×10 image with no templates. -/
theorem c7_amended_witness :
    dkeys ((zeroCounts, 0) : List (ShardType × Int) × Nat).1 = ShardType.all ∧
    (((Pipeline.read_counters c3disk c3mm pOcr0 none c3img).1.2).map Pipeline.OcrBand.name
        = Pipeline.BAND_ORDER ∧
     dkeys ((Pipeline.read_counters c3disk c3mm pOcr0 none c3img).1.1)
        = Pipeline.BAND_ORDER) :=
  ⟨c7_amended.1 c7env0 (Shards.PImg.base 20 20) false (zeroCounts, 0) (by rfl),
   c7_amended.2 c3disk c3mm pOcr0 none c3img (by decide) (by decide)⟩

def c7disk : Pipeline.Templates := [("Mystery", (10, 10)), ("Ancient", (10, 10)), ("Void", (10, 10))]

def c7mm : Pipeline.MatchOracle := fun _ nm _ _ =>
  if nm = "Mystery" then (9/10, 0, 50)
  else if nm = "Ancient" then (9/10, 0, 10)
  else (9/10, 0, 90)

def c7img : Pipeline.Img2 := Pipeline.Img2.mat 2000 2000 (some 3)

/-- Counterexample to claim C7 as stated: with three icons matched at
y-positions 10 (Ancient), 50 (Mystery) and 90 (Void), the per-counter
results of `read_counters` iterate as Ancient, Mystery, Void — not in
ShardType declaration order, whose first element is Mystery. -/
theorem c7_counterexample :
    ((Pipeline.read_counters c7disk c7mm pOcr0 none c7img).1.2).map Pipeline.OcrBand.name
      = ["Ancient", "Mystery", "Void"] ∧
    ["Ancient", "Mystery", "Void"] ≠ List.take 3 Pipeline.BAND_ORDER := by
  exact ⟨by rfl, by decide⟩

/-! ## Completeness of the result maps (claim C2) -/

def c2disk5 : Pipeline.Templates :=
  [("Mystery", (10, 10)), ("Ancient", (10, 10)), ("Void", (10, 10)),
   ("Primal", (10, 10)), ("Sacred", (10, 10))]

def c2mm5 : Pipeline.MatchOracle := fun _ nm _ _ =>
  if nm = "Mystery" then (9/10, 0, 10)
  else if nm = "Ancient" then (9/10, 0, 30)
  else if nm = "Void" then (9/10, 0, 50)
  else if nm = "Primal" then (9/10, 0, 70)
  else (9/10, 0, 90)

def c2img5 : Pipeline.Img2 := Pipeline.Img2.mat 2000 2000 (some 3)

/-- Claim C2 amended: `extract_counts_from_image_bytes` returns either
the empty map or a map with exactly the five `ShardType` keys — not
always the five keys: an all-zero read is collapsed to `{}` (and in this
code the empty map is in fact the only reachable result, see C10).  The
`counts` map of `read_counters` has exactly one key per located ROI
name, in locator order: all five `BAND_ORDER` names whenever the
equal-band fallback ran (third conjunct), and the matched icons' names
in the template path — all five when all five icons match (fourth
conjunct, a concrete run with five matched icons taking the template
path), but only the matched 3 or 4 when fewer do. -/
theorem c2_amended :
    (∀ env : Shards.Env,
       Shards.extract_counts_from_image_bytes env = [] ∨
       dkeys (Shards.extract_counts_from_image_bytes env) = ShardType.all) ∧
    (∀ (disk : Pipeline.Templates) (mm : Pipeline.MatchOracle) (env : Pipeline.OcrEnv)
        (cache : Option Pipeline.Templates) (img : Pipeline.Img2),
       dkeys ((Pipeline.read_counters disk mm env cache img).1.1)
         = firstDedup (((Pipeline.find_counter_rois disk mm cache img).1).map Prod.fst)) ∧
    (∀ (disk : Pipeline.Templates) (mm : Pipeline.MatchOracle) (env : Pipeline.OcrEnv)
        (cache : Option Pipeline.Templates) (img : Pipeline.Img2),
       img.size ≠ 0 →
       (Pipeline.match_icons (cache.getD disk) mm img).length < 3 →
       dkeys ((Pipeline.read_counters disk mm env cache img).1.1) = Pipeline.BAND_ORDER) ∧
    ((Pipeline.match_icons ((none : Option Pipeline.Templates).getD c2disk5) c2mm5 c2img5).length
        = 5 ∧
     (Pipeline._template_rois_with_boxes c2disk5 c2mm5 none c2img5).1.length = 5 ∧
     (Pipeline.find_counter_rois c2disk5 c2mm5 none c2img5).1.map Prod.fst
        = Pipeline.BAND_ORDER ∧
     dkeys ((Pipeline.read_counters c2disk5 c2mm5 pOcr0 none c2img5).1.1)
        = Pipeline.BAND_ORDER) := by
  refine ⟨?_, ?_, ?_, by rfl, by rfl, by rfl, by rfl⟩
  · intro env
    left
    exact shards_extract_empty env
  · intro disk mm env cache img
    unfold Pipeline.read_counters firstDedup
    dsimp only
    simpa using (countersFold_spec env (Pipeline.find_counter_rois disk mm cache img).1 [] []).1
  · intro disk mm env cache img hs hhits
    have hfind := find_counter_rois_fallback disk mm cache img hhits
    have hnames := legacy_names img hs
    unfold Pipeline.read_counters
    rw [hfind]
    dsimp only
    rw [(countersFold_spec env (Pipeline._legacy_find_counter_rois img) [] []).1, hnames]
    rfl

def c2imgW : Pipeline.Img2 := Pipeline.Img2.mat 9 9 (some 3)

/-- Witness for C2 at a 9×9 image with no templates on disk: zero icons
match, so the fallback runs and the counts map carries all five
`BAND_ORDER` keys. -/
theorem c2_amended_witness :
    dkeys ((Pipeline.read_counters c3disk c3mm pOcr0 none c2imgW).1.1)
      = Pipeline.BAND_ORDER :=
  c2_amended.2.2.1 c3disk c3mm pOcr0 none c2imgW (by decide) (by decide)

def c2env : Shards.Env := ⟨true, some (1000, 500), fun _ _ => none, fun _ => true⟩

/-- Counterexample to claim C2 as stated: a decodable 1000×500 input on
which OCR finds nothing yields the empty map, which does not contain the
five `ShardType` keys. -/
theorem c2_counterexample :
    Shards.extract_counts_from_image_bytes c2env = [] ∧
    dkeys (Shards.extract_counts_from_image_bytes c2env) ≠ ShardType.all := by
  refine ⟨shards_extract_empty c2env, ?_⟩
  rw [shards_extract_empty c2env]
  decide

/-! ## Idempotence across the template cache (claim C9) -/

/-- Claim C9: re-running `read_counters` on the same image after the
first call populated the module-level template cache yields exactly the
same payload and the same cache: the lazily-populated cache (the only
cross-call state) stores precisely what `load_templates` would read from
disk, so its population does not change any later call's output.  The
shards entry point `extract_counts_from_image_bytes` shares no state at
all across calls, so its determinism is immediate in this model. -/
theorem c9_cache_idempotent (disk : Pipeline.Templates) (mm : Pipeline.MatchOracle)
    (env : Pipeline.OcrEnv) (img : Pipeline.Img2) :
    Pipeline.read_counters disk mm env (Pipeline.read_counters disk mm env none img).2 img
      = Pipeline.read_counters disk mm env none img := rfl

/-! ## Decode failure handling (claim C1) -/

def envDecodeFail : Shards.Env := ⟨true, none, fun _ _ => none, fun _ => true⟩

def envTypeErr : Shards.Env :=
  ⟨true, some (100, 100), fun _ _ => some [⟨0, 0, 10, 10, 50, "123", ""⟩], fun _ => true⟩

/-- Claim C1 amended: undecodable bytes make the body of
`extract_counts_from_image_bytes` raise internally, but the error is
caught by the function's own `except Exception: return {}` — the caller
receives the empty map and no exception, and no partial map is produced.
Decode failure is also not the only internally-raising condition: any
band that picks a token raises `TypeError` at the band-scoring line
(685), likewise absorbed into `{}`. -/
theorem c1_amended :
    (∀ env : Shards.Env, env.available = true → env.decode = none →
       Shards.extract_counts_body env = .error .decodeErr ∧
       Shards.extract_counts_from_image_bytes env = []) ∧
    Shards.extract_counts_body envTypeErr = .error .typeErr ∧
    Shards.extract_counts_from_image_bytes envTypeErr = [] := by
  refine ⟨?_, by rfl, shards_extract_empty envTypeErr⟩
  intro env hav hdec
  have hbody : Shards.extract_counts_body env = .error .decodeErr := by
    unfold Shards.extract_counts_body
    rw [hav, hdec]
    rfl
  exact ⟨hbody, shards_extract_empty env⟩

/-- Witness for C1 at a concrete environment with undecodable bytes. -/
theorem c1_amended_witness :
    Shards.extract_counts_body envDecodeFail = .error .decodeErr ∧
    Shards.extract_counts_from_image_bytes envDecodeFail = [] :=
  c1_amended.1 envDecodeFail rfl rfl

/-- Counterexample to claim C1 as stated: on undecodable bytes the entry
point returns the empty map normally — no decode error reaches the
caller (there is no `ImageDecodeError` anywhere in the code). -/
theorem c1_counterexample :
    Shards.extract_counts_from_image_bytes envDecodeFail = [] := rfl

/-! ## Entry-point invariant (claim C10) -/

/-- Claim C10: `extract_counts_from_image_bytes` never raises — every
internal exception is absorbed and yields `{}` — and its result is
either the empty dict or a dict with exactly the five `ShardType` keys,
all values non-negative and at least one strictly positive.  (The
disjunction is in fact settled entirely by its left side: the latent
`TypeError` at the band-scoring line aborts every read that picks a
token, and token-free reads are all-zero and collapsed to `{}`, so the
entry point only ever returns the empty dict — see
`shards_extract_empty`.) -/
theorem c10_invariant (env : Shards.Env) :
    (∀ e, Shards.extract_counts_body env = .error e →
       Shards.extract_counts_from_image_bytes env = []) ∧
    (Shards.extract_counts_from_image_bytes env = [] ∨
      (dkeys (Shards.extract_counts_from_image_bytes env) = ShardType.all ∧
       (∀ p ∈ Shards.extract_counts_from_image_bytes env, 0 ≤ p.2) ∧
       ∃ p ∈ Shards.extract_counts_from_image_bytes env, 0 < p.2)) := by
  constructor
  · intro e h
    unfold Shards.extract_counts_from_image_bytes
    rw [h]
  · left
    exact shards_extract_empty env

/-- Witness for C10: the environment whose single OCR token trips the
band-scoring `TypeError`; the entry point still returns the empty map. -/
theorem c10_invariant_witness :
    Shards.extract_counts_from_image_bytes envTypeErr = [] :=
  (c10_invariant envTypeErr).1 .typeErr (by rfl)

end C1C
